import Mathlib

/-!
# Base-station calculation service: verification of the specification

This development embeds the core of the base-station calculation service
(domain model, validator, calculation engine) and the numeric helpers of its
React frontend, and proves the specified properties about them.

The backend source (Python: models, validator, calculator) is not part of the
visible source tree; following the specification document, the backend
definitions below are modelled from the spec's words.  The frontend
definitions are translated from `front/src/App.jsx`.

Numeric conventions: JSON numbers and all frontend values are modelled as
exact rationals (`ℚ`); the engine's geometric formulas (square roots,
fractional powers) are interpreted over the reals (`ℝ`), as the spec states
them.  Rounding "to 2 decimals" is `round (100 * x) / 100`.
-/

namespace Backend

/-- Modelled from the spec (§3 Data Model): a station type with its id,
coverage area `S` and handover bounds.  The backend model files are not in
the visible source tree. -/
structure StationType where
  id : Nat
  coverageArea : ℚ
  handoverMin : ℚ
  handoverMax : ℚ
  deriving DecidableEq

/-- Modelled from the spec (§3 Data Model): a sparse handover mapping entry
`stationTypeId → value`. -/
structure HandoverEntry where
  stationTypeId : Nat
  value : ℚ
  deriving DecidableEq

/-- Modelled from the spec (§3 Data Model): a district with area `s`,
buildup coefficient `k` and an ordered list of station-type occurrences
(duplicates allowed). -/
structure DistrictInput where
  id : String
  area : ℚ
  k : ℚ
  stations : List Nat
  deriving DecidableEq

/-- Modelled from the spec (§3 Data Model): a calculation request with a
caller-supplied `pi`, the station types, the handover entries and the
districts. -/
structure CalculationRequest where
  pi : ℚ
  stationTypes : List StationType
  handovers : List HandoverEntry
  districts : List DistrictInput
  deriving DecidableEq

/-- Modelled from the spec (§3 Data Model): one district's result record. -/
structure DistrictResult where
  districtId : String
  n : ℝ
  handoverAvg : ℚ
  handoverAdjusted : Bool

/-- Modelled from the spec (§3 Data Model): the full response. -/
structure CalculationResponse where
  districtResults : List DistrictResult
  totalN : ℝ

/-- Modelled from the spec (§7 Error taxonomy, §4.1): the single descriptive
validation error, identifying the offending entity. -/
inductive ValidationError where
  | nonPositiveArea (districtId : String)
  | nonPositiveK (districtId : String)
  | tooFewStations (districtId : String)
  | nonPositiveCoverage (stationTypeId : Nat)
  | duplicateStationTypeIds (stationTypeId : Nat)
  | unknownStationType (stationTypeId : Nat)
  | noHandoverData (stationTypeId : Nat)
  deriving DecidableEq

/-- Modelled from the spec (§4.1, §7): human-readable description attached to
a validation failure ("no handover data for station type X"). -/
def errorMessage : ValidationError → String
  | .nonPositiveArea districtId => "district " ++ districtId ++ ": area must be positive"
  | .nonPositiveK districtId => "district " ++ districtId ++ ": k must be positive"
  | .tooFewStations districtId =>
      "district " ++ districtId ++ ": at least 3 stations are required"
  | .nonPositiveCoverage i => "station type " ++ toString i ++ ": coverageArea must be positive"
  | .duplicateStationTypeIds i => "duplicate station type id " ++ toString i
  | .unknownStationType i => "unknown station type " ++ toString i
  | .noHandoverData i => "no handover data for station type " ++ toString i

/-- The station-type id a validation error is about, if any (district-level
errors name a district instead). -/
def namedStationType : ValidationError → Option Nat
  | .nonPositiveCoverage i => some i
  | .duplicateStationTypeIds i => some i
  | .unknownStationType i => some i
  | .noHandoverData i => some i
  | _ => none

/-- The district id a validation error is about, if any. -/
def namedDistrict : ValidationError → Option String
  | .nonPositiveArea districtId => some districtId
  | .nonPositiveK districtId => some districtId
  | .tooFewStations districtId => some districtId
  | _ => none

/-- First element of the list that occurs again later in it, if any; used to
detect duplicate station-type ids. -/
def firstDup : List Nat → Option Nat
  | [] => none
  | x :: xs => if x ∈ xs then some x else firstDup xs

/-- Modelled from the spec (§4.1): scan the districts in order and report the
first district-level rule violation (`area > 0`, `k > 0`, at least 3 station
occurrences). -/
def districtScan (req : CalculationRequest) : Option ValidationError :=
  req.districts.findSome? fun d =>
    if d.area ≤ 0 then some (.nonPositiveArea d.id)
    else if d.k ≤ 0 then some (.nonPositiveK d.id)
    else if d.stations.length < 3 then some (.tooFewStations d.id)
    else none

/-- Modelled from the spec (§4.1): scan the station types and report the first
non-positive `coverageArea`. -/
def stationTypeScan (req : CalculationRequest) : Option ValidationError :=
  req.stationTypes.findSome? fun st =>
    if st.coverageArea ≤ 0 then some (.nonPositiveCoverage st.id) else none

/-- Modelled from the spec (§4.1): duplicate StationType ids are rejected. -/
def dupScan (req : CalculationRequest) : Option ValidationError :=
  (firstDup (req.stationTypes.map fun st => st.id)).map .duplicateStationTypeIds

/-- Modelled from the spec (§4.1): every station-type id appearing in a
district's `stations` list must be resolvable to a StationType. -/
def unknownScan (req : CalculationRequest) : Option ValidationError :=
  req.districts.findSome? fun d =>
    (d.stations.find? fun i =>
        (req.stationTypes.find? fun st => st.id == i).isNone).map .unknownStationType

/-- Modelled from the spec (§4.2): the first station-type id referenced by a
district, in scan order, that has no entry in the request's `handovers`
list. -/
def firstUnresolved (req : CalculationRequest) : Option Nat :=
  req.districts.findSome? fun d =>
    d.stations.find? fun i => (req.handovers.find? fun h => h.stationTypeId == i).isNone

/-- Modelled from the spec (§4.2, §6): with no external handover source
configured — the configuration this development fixes — any station-type id
missing from the local handover list is itself a validation failure. -/
def unresolvedScan (req : CalculationRequest) : Option ValidationError :=
  (firstUnresolved req).map .noHandoverData

/-- Modelled from the spec (§4.1, §5): the validator, reporting the first
failure encountered by scanning districts then station types, with unresolved
handover ids surfacing last (validation precedes resolution); `none` means
the request is valid. -/
def validate (req : CalculationRequest) : Option ValidationError :=
  match districtScan req with
  | some e => some e
  | none =>
    match stationTypeScan req with
    | some e => some e
    | none =>
      match dupScan req with
      | some e => some e
      | none =>
        match unknownScan req with
        | some e => some e
        | none => unresolvedScan req

/-- Modelled from the spec (§4.3): resolve a station-type id to its
StationType; after validation every referenced id resolves, so the default is
never consulted on validated requests. -/
def typeOf (req : CalculationRequest) (i : Nat) : StationType :=
  (req.stationTypes.find? fun st => st.id == i).getD ⟨0, 0, 0, 0⟩

/-- Modelled from the spec (§4.2, §4.3): the effective handover value of a
station-type id; with no external source configured this is the local
`handovers` entry, which validation guarantees to exist. -/
def handoverOf (req : CalculationRequest) (i : Nat) : ℚ :=
  ((req.handovers.find? fun h => h.stationTypeId == i).map fun h => h.value).getD 0

/-- Modelled from the spec (§4.3 step 5): the distinct station types present
in a district, each counted once. -/
def distinctIds (l : List Nat) : List Nat := l.dedup

/-- Modelled from the spec (§4.3 step 5): `handoverAvg` = arithmetic mean of
the effective handover values of the distinct station types present in the
district. -/
def handoverAvgRaw (req : CalculationRequest) (d : DistrictInput) : ℚ :=
  ((distinctIds d.stations).map (handoverOf req)).sum / ((distinctIds d.stations).length : ℚ)

/-- Modelled from the spec (§4.3 step 5): whether `handoverAvg` is strictly
below the `handoverMin` of some station type present in the district. -/
def adjustedFlag (req : CalculationRequest) (d : DistrictInput) : Bool :=
  (distinctIds d.stations).any fun i => handoverAvgRaw req d < (typeOf req i).handoverMin

/-- Modelled from the spec (§4.3 step 1): the district's base radius
`R0 = sqrt(area / pi)`. -/
noncomputable def R0 (req : CalculationRequest) (d : DistrictInput) : ℝ :=
  Real.sqrt ((d.area : ℝ) / (req.pi : ℝ))

/-- Modelled from the spec (§4.3 step 2): a station type's radius
`Ri = sqrt(coverageArea_i / pi)`. -/
noncomputable def stationRadius (req : CalculationRequest) (i : Nat) : ℝ :=
  Real.sqrt (((typeOf req i).coverageArea : ℝ) / (req.pi : ℝ))

/-- Modelled from the spec (§4.3 step 3): the radii of the district's station
occurrences, one entry per occurrence, in input order. -/
noncomputable def radiiOf (req : CalculationRequest) (d : DistrictInput) : List ℝ :=
  d.stations.map (stationRadius req)

/-- Modelled from the spec (§4.3 step 2): `L` = arithmetic mean of
`Li = k * (R0 / Ri)^2` over all station occurrences (divisor = number of
occurrences). -/
noncomputable def LRaw (req : CalculationRequest) (d : DistrictInput) : ℝ :=
  ((d.stations.map fun i => (d.k : ℝ) * (R0 req d / stationRadius req i) ^ 2).sum) /
    (d.stations.length : ℝ)

/-- Modelled from the spec (§4.3 step 3): occurrences' radii sorted in
descending order; Mathlib's insertion sort is stable, so ties are broken by
first encounter as the spec requires. -/
noncomputable def sortDesc (l : List ℝ) : List ℝ :=
  l.insertionSort fun a b => a ≥ b

/-- Modelled from the spec (§4.3 step 3): combine the three selected radii,
largest first, as `C = (2*R1)^(5/2) + (2*R2)^(3/2) + (2*R3)^(1/2)`. -/
noncomputable def combineTop : List ℝ → ℝ
  | [r1, r2, r3] => (2 * r1) ^ ((5 : ℝ) / 2) + (2 * r2) ^ ((3 : ℝ) / 2) + (2 * r3) ^ ((1 : ℝ) / 2)
  | _ => 0

/-- Modelled from the spec (§4.3 step 3): the cluster factor `C`, computed
from the 3 largest radii. -/
noncomputable def CRaw (req : CalculationRequest) (d : DistrictInput) : ℝ :=
  combineTop ((sortDesc (radiiOf req d)).take 3)

/-- Modelled from the spec (§4.3 step 4): the unadjusted station count
`n = L / C`. -/
noncomputable def nUnadj (req : CalculationRequest) (d : DistrictInput) : ℝ :=
  LRaw req d / CRaw req d

/-- Modelled from the spec (§4.3 step 5): the full-precision station count,
multiplied by 1.4 when the handover adjustment applies. -/
noncomputable def nFull (req : CalculationRequest) (d : DistrictInput) : ℝ :=
  if adjustedFlag req d then 1.4 * nUnadj req d else nUnadj req d

/-- Rounding a real to 2 decimal places, as used for the output records. -/
noncomputable def round2R (x : ℝ) : ℝ := ((round (100 * x) : ℤ) : ℝ) / 100

/-- Rounding a rational to 2 decimal places. -/
def round2Q (x : ℚ) : ℚ := ((round (100 * x) : ℤ) : ℚ) / 100

/-- Modelled from the spec (§4.3 step 6): one district's output record, with
`n` and `handoverAvg` rounded to 2 decimals. -/
noncomputable def districtResultOf (req : CalculationRequest) (d : DistrictInput) :
    DistrictResult :=
  { districtId := d.id
    n := round2R (nFull req d)
    handoverAvg := round2Q (handoverAvgRaw req d)
    handoverAdjusted := adjustedFlag req d }

/-- Modelled from the spec (§4.3): the pure calculation engine; `totalN` sums
the per-district values at full precision and rounds once at the end. -/
noncomputable def engine (req : CalculationRequest) : CalculationResponse :=
  { districtResults := req.districts.map fun d => districtResultOf req d
    totalN := round2R (req.districts.map fun d => nFull req d).sum }

/-- Modelled from the spec (§5, §7): the request pipeline — validation
short-circuits before any calculation occurs; the engine runs only on valid
requests. -/
noncomputable def calculate (req : CalculationRequest) :
    Except ValidationError CalculationResponse :=
  match validate req with
  | some e => .error e
  | none => .ok (engine req)

/-! ### Helper lemmas about the validator -/

theorem validate_eq_none_iff {req : CalculationRequest} :
    validate req = none ↔
      districtScan req = none ∧ stationTypeScan req = none ∧ dupScan req = none ∧
        unknownScan req = none ∧ unresolvedScan req = none := by
  unfold validate
  cases districtScan req <;> cases stationTypeScan req <;> cases dupScan req <;>
    cases unknownScan req <;> simp

theorem districtScan_checks {req : CalculationRequest} (h : districtScan req = none)
    {d : DistrictInput} (hd : d ∈ req.districts) :
    0 < d.area ∧ 0 < d.k ∧ 3 ≤ d.stations.length := by
  unfold districtScan at h
  rw [List.findSome?_eq_none_iff] at h
  have hd' := h d hd
  by_cases h1 : d.area ≤ 0
  · simp [h1] at hd'
  · by_cases h2 : d.k ≤ 0
    · simp [h1, h2] at hd'
    · by_cases h3 : d.stations.length < 3
      · simp [h1, h2, h3] at hd'
      · exact ⟨lt_of_not_le h1, lt_of_not_le h2, le_of_not_lt h3⟩

theorem stations_length_of_validate {req : CalculationRequest}
    (hv : validate req = none) {d : DistrictInput} (hd : d ∈ req.districts) :
    3 ≤ d.stations.length :=
  (districtScan_checks (validate_eq_none_iff.mp hv).1 hd).2.2

theorem calculate_eq_ok {req : CalculationRequest} (hv : validate req = none) :
    calculate req = .ok (engine req) := by
  unfold calculate
  rw [hv]

theorem calculate_eq_error {req : CalculationRequest} {e : ValidationError}
    (hv : validate req = some e) : calculate req = .error e := by
  unfold calculate
  rw [hv]

/-! ### Helper lemmas about the engine -/

theorem distinctIds_nodup (l : List Nat) : (distinctIds l).Nodup := l.nodup_dedup

theorem mem_distinctIds {l : List Nat} {i : Nat} : i ∈ distinctIds l ↔ i ∈ l := l.mem_dedup

theorem adjustedFlag_iff {req : CalculationRequest} {d : DistrictInput} :
    adjustedFlag req d = true ↔
      ∃ i ∈ d.stations, handoverAvgRaw req d < (typeOf req i).handoverMin := by
  simp [adjustedFlag, List.any_eq_true, distinctIds, List.mem_dedup]

theorem typeOf_mem_of_validate {req : CalculationRequest} (hv : validate req = none)
    {d : DistrictInput} (hd : d ∈ req.districts) {i : Nat} (hi : i ∈ d.stations) :
    typeOf req i ∈ req.stationTypes ∧ (typeOf req i).id = i := by
  obtain ⟨-, -, -, hunk, -⟩ := validate_eq_none_iff.mp hv
  unfold unknownScan at hunk
  rw [List.findSome?_eq_none_iff] at hunk
  have h1 := hunk d hd
  rw [Option.map_eq_none', List.find?_eq_none] at h1
  have h2 := h1 i hi
  cases hfind : req.stationTypes.find? fun st => st.id == i with
  | none => rw [hfind] at h2; simp at h2
  | some st =>
    have hid : st.id = i := by
      have := List.find?_some hfind
      simpa using this
    have : typeOf req i = st := by
      unfold typeOf
      rw [hfind]
      rfl
    rw [this]
    exact ⟨List.mem_of_find?_eq_some hfind, hid⟩

theorem typeOf_coverage_pos {req : CalculationRequest} (hv : validate req = none)
    {d : DistrictInput} (hd : d ∈ req.districts) {i : Nat} (hi : i ∈ d.stations) :
    0 < (typeOf req i).coverageArea := by
  have hmem := (typeOf_mem_of_validate hv hd hi).1
  obtain ⟨-, hst, -, -, -⟩ := validate_eq_none_iff.mp hv
  unfold stationTypeScan at hst
  rw [List.findSome?_eq_none_iff] at hst
  have h3 := hst _ hmem
  by_cases hc : (typeOf req i).coverageArea ≤ 0
  · simp [hc] at h3
  · exact lt_of_not_le hc

theorem exists_three_of_le_length {α : Type _} {l : List α} (h : 3 ≤ l.length) :
    ∃ a b c t, l = a :: b :: c :: t := by
  rcases l with _ | ⟨a, _ | ⟨b, _ | ⟨c, t⟩⟩⟩
  · simp at h
  · simp at h
  · simp at h
  · exact ⟨a, b, c, t, rfl⟩

/-! ### Claim theorems for the calculation engine -/

/-- C1: for every district, `handoverAvg` is the arithmetic mean of the
effective handover values of the distinct station types present in the
district — a type occurring several times contributes once to the sum and
once to the divisor (the number of distinct types), while `L`'s divisor is
the number of occurrences. -/
theorem handoverAvg_mean_of_distinct_types (req : CalculationRequest) (d : DistrictInput) :
    handoverAvgRaw req d =
      (∑ i in d.stations.toFinset, handoverOf req i) / (d.stations.toFinset.card : ℚ) ∧
    (districtResultOf req d).handoverAvg = round2Q (handoverAvgRaw req d) ∧
    LRaw req d =
      ((d.stations.map fun i => (d.k : ℝ) * (R0 req d / stationRadius req i) ^ 2).sum) /
        (d.stations.length : ℝ) := by
  refine ⟨?_, rfl, rfl⟩
  unfold handoverAvgRaw distinctIds
  have hts : d.stations.dedup.toFinset = d.stations.toFinset := by
    ext i
    simp [List.mem_toFinset, List.mem_dedup]
  rw [List.card_toFinset, ← hts, List.sum_toFinset _ (List.nodup_dedup _)]

/-- C2: for every validated district, if `handoverAvg` is strictly below the
`handoverMin` of at least one station type present in the district then the
result is flagged and the full-precision `n` is exactly 1.4 times the
unadjusted `L / C`; otherwise the flag is false and `n` is the unadjusted
`L / C` (the emitted `n` being its 2-decimal rounding). -/
theorem handover_adjustment_rule (req : CalculationRequest) (d : DistrictInput)
    (hd : d ∈ req.districts) (hv : validate req = none) :
    ((∃ i ∈ d.stations, handoverAvgRaw req d < (typeOf req i).handoverMin) →
      (districtResultOf req d).handoverAdjusted = true ∧
        nFull req d = 1.4 * (LRaw req d / CRaw req d)) ∧
    ((∀ i ∈ d.stations, ¬ handoverAvgRaw req d < (typeOf req i).handoverMin) →
      (districtResultOf req d).handoverAdjusted = false ∧
        nFull req d = LRaw req d / CRaw req d) ∧
    (districtResultOf req d).n = round2R (nFull req d) := by
  refine ⟨?_, ?_, rfl⟩
  · intro hex
    have hf : adjustedFlag req d = true := adjustedFlag_iff.mpr hex
    exact ⟨hf, by simp [nFull, nUnadj, hf]⟩
  · intro hall
    have hf : adjustedFlag req d = false := by
      cases hflag : adjustedFlag req d with
      | false => rfl
      | true =>
        obtain ⟨i, hi, hlt⟩ := adjustedFlag_iff.mp hflag
        exact absurd hlt (hall i hi)
    exact ⟨hf, by simp [nFull, nUnadj, hf]⟩

/-- C3: for every validated district, the engine combines the 3 largest
station radii (descending: the largest receives exponent 5/2, the smallest of
the three exponent 1/2, each doubled into a diameter first) into the cluster
factor `C`, and the unadjusted station count is `n = L / C`. -/
theorem cluster_formula (req : CalculationRequest) (d : DistrictInput)
    (hd : d ∈ req.districts) (hv : validate req = none) :
    ∃ r1 r2 r3 rest,
      (radiiOf req d).Perm (r1 :: r2 :: r3 :: rest) ∧
      r2 ≤ r1 ∧ r3 ≤ r2 ∧ (∀ x ∈ rest, x ≤ r3) ∧
      CRaw req d =
        (2 * r1) ^ ((5 : ℝ) / 2) + (2 * r2) ^ ((3 : ℝ) / 2) + (2 * r3) ^ ((1 : ℝ) / 2) ∧
      nUnadj req d = LRaw req d / CRaw req d := by
  have hlen : 3 ≤ d.stations.length := stations_length_of_validate hv hd
  have hperm : (sortDesc (radiiOf req d)).Perm (radiiOf req d) :=
    List.perm_insertionSort _ _
  have hsort : (sortDesc (radiiOf req d)).Sorted (fun a b => a ≥ b) :=
    List.sorted_insertionSort _ _
  have hslen : 3 ≤ (sortDesc (radiiOf req d)).length := by
    rw [hperm.length_eq, radiiOf, List.length_map]
    exact hlen
  obtain ⟨r1, r2, r3, rest, hs⟩ := exists_three_of_le_length hslen
  rw [hs] at hperm hsort
  refine ⟨r1, r2, r3, rest, hperm.symm, ?_, ?_, ?_, ?_, rfl⟩
  · exact (List.sorted_cons.mp hsort).1 r2 (by simp)
  · exact (List.sorted_cons.mp (List.sorted_cons.mp hsort).2).1 r3 (by simp)
  · intro x hx
    exact (List.sorted_cons.mp
      (List.sorted_cons.mp (List.sorted_cons.mp hsort).2).2).1 x hx
  · unfold CRaw
    rw [hs]
    rfl

/-- C4: for every validated district, `L` is the arithmetic mean over all
station occurrences (duplicates counted separately, divisor = number of
occurrences) of `Li = k * (R0 / Ri)^2` with `R0 = sqrt(area/pi)` and
`Ri = sqrt(coverageArea_i/pi)`; when the caller-supplied `pi` is positive
this simplifies to `Li = k * area / coverageArea_i`. -/
theorem L_mean_over_occurrences (req : CalculationRequest) (d : DistrictInput)
    (hd : d ∈ req.districts) (hv : validate req = none) :
    LRaw req d =
      ((d.stations.map fun i =>
          (d.k : ℝ) *
            (Real.sqrt ((d.area : ℝ) / (req.pi : ℝ)) /
              Real.sqrt (((typeOf req i).coverageArea : ℝ) / (req.pi : ℝ))) ^ 2).sum) /
        (d.stations.length : ℝ) ∧
    (0 < req.pi →
      LRaw req d =
        ((d.stations.map fun i =>
            (d.k : ℝ) * ((d.area : ℝ) / ((typeOf req i).coverageArea : ℝ))).sum) /
          (d.stations.length : ℝ)) := by
  constructor
  · rfl
  · intro hpi
    have hpi' : (0 : ℝ) < (req.pi : ℝ) := by exact_mod_cast hpi
    have harea : (0 : ℝ) < (d.area : ℝ) := by
      exact_mod_cast (districtScan_checks (validate_eq_none_iff.mp hv).1 hd).1
    unfold LRaw
    congr 1
    congr 1
    apply List.map_congr_left
    intro i hi
    have hcov : (0 : ℝ) < ((typeOf req i).coverageArea : ℝ) := by
      exact_mod_cast typeOf_coverage_pos hv hd hi
    congr 1
    unfold R0 stationRadius
    rw [div_pow, Real.sq_sqrt (by positivity), Real.sq_sqrt (by positivity),
      div_div_div_cancel_right₀]
    exact hpi'.ne'

theorem abs_round2R_sub (x : ℝ) : |round2R x - x| ≤ 1 / 200 := by
  unfold round2R
  have h := abs_sub_round (100 * x)
  rw [show ((round (100 * x) : ℤ) : ℝ) / 100 - x = -((100 * x - (round (100 * x) : ℤ)) / 100)
    by ring, abs_neg, abs_div, abs_of_pos (by norm_num : (0:ℝ) < 100)]
  linarith

theorem abs_sum_round2R_sub (l : List ℝ) :
    |(l.map round2R).sum - l.sum| ≤ (l.length : ℝ) / 200 := by
  induction l with
  | nil => simp
  | cons x t ih =>
    have hx := abs_round2R_sub x
    have htri : |(round2R x + (t.map round2R).sum) - (x + t.sum)| ≤
        |round2R x - x| + |(t.map round2R).sum - t.sum| := by
      have : (round2R x + (t.map round2R).sum) - (x + t.sum) =
          (round2R x - x) + ((t.map round2R).sum - t.sum) := by ring
      rw [this]
      exact abs_add _ _
    simp only [List.map_cons, List.sum_cons, List.length_cons]
    push_cast
    calc |(round2R x + (t.map round2R).sum) - (x + t.sum)| ≤
        |round2R x - x| + |(t.map round2R).sum - t.sum| := htri
      _ ≤ 1 / 200 + (t.length : ℝ) / 200 := add_le_add hx ih
      _ = ((t.length : ℝ) + 1) / 200 := by ring

/-- C5: for every request passing validation, `totalN` is the sum of the
per-district `n` values at full precision, rounded to 2 decimals only once at
the end; consequently it agrees with the sum of the response's rounded
per-district `n` values to within the 2-decimal rounding tolerance of
`(number of districts + 1) / 200`. -/
theorem totalN_full_precision_sum (req : CalculationRequest) (hv : validate req = none) :
    calculate req = .ok (engine req) ∧
    (engine req).totalN = round2R ((req.districts.map fun d => nFull req d).sum) ∧
    |(engine req).totalN - (((engine req).districtResults.map fun r => r.n).sum)| ≤
      ((req.districts.length : ℝ) + 1) / 200 := by
  refine ⟨calculate_eq_ok hv, rfl, ?_⟩
  have hmap : ((engine req).districtResults.map fun r => r.n) =
      (req.districts.map fun d => nFull req d).map round2R := by
    unfold engine
    simp only [List.map_map]
    rfl
  rw [hmap]
  have h1 := abs_round2R_sub ((req.districts.map fun d => nFull req d).sum)
  have h2 := abs_sum_round2R_sub (req.districts.map fun d => nFull req d)
  have hlen : ((req.districts.map fun d => nFull req d).length : ℝ) =
      (req.districts.length : ℝ) := by
    rw [List.length_map]
  rw [hlen] at h2
  have htri : |(engine req).totalN -
      ((req.districts.map fun d => nFull req d).map round2R).sum| ≤
      |(engine req).totalN - (req.districts.map fun d => nFull req d).sum| +
      |((req.districts.map fun d => nFull req d).map round2R).sum -
        (req.districts.map fun d => nFull req d).sum| := by
    have : (engine req).totalN -
        ((req.districts.map fun d => nFull req d).map round2R).sum =
        ((engine req).totalN - (req.districts.map fun d => nFull req d).sum) -
        (((req.districts.map fun d => nFull req d).map round2R).sum -
          (req.districts.map fun d => nFull req d).sum) := by ring
    rw [this]
    exact abs_sub _ _
  have htot : |(engine req).totalN - (req.districts.map fun d => nFull req d).sum| ≤
      1 / 200 := abs_round2R_sub _
  calc |(engine req).totalN - ((req.districts.map fun d => nFull req d).map round2R).sum|
      ≤ _ + _ := htri
    _ ≤ 1 / 200 + (req.districts.length : ℝ) / 200 := add_le_add htot h2
    _ = ((req.districts.length : ℝ) + 1) / 200 := by ring

theorem districtScan_of_first_short {l : List DistrictInput} {d₀ : DistrictInput}
    (hak : ∀ d' ∈ l, 0 < d'.area ∧ 0 < d'.k)
    (hfind : l.find? (fun d' => d'.stations.length < 3) = some d₀) :
    (l.findSome? fun d =>
        if d.area ≤ 0 then some (ValidationError.nonPositiveArea d.id)
        else if d.k ≤ 0 then some (ValidationError.nonPositiveK d.id)
        else if d.stations.length < 3 then some (ValidationError.tooFewStations d.id)
        else none) = some (.tooFewStations d₀.id) := by
  induction l with
  | nil => simp at hfind
  | cons d t ih =>
    have ⟨ha, hk⟩ := hak d (by simp)
    rw [List.findSome?_cons]
    rw [if_neg (not_le.mpr ha), if_neg (not_le.mpr hk)]
    by_cases hlt : d.stations.length < 3
    · rw [List.find?_cons_of_pos _ (by simpa using hlt)] at hfind
      cases hfind
      rw [if_pos hlt]
    · rw [List.find?_cons_of_neg _ (by simpa using hlt)] at hfind
      rw [if_neg hlt]
      exact ih (fun d' hd' => hak d' (by simp [hd'])) hfind

/-- C6: a request containing a district with fewer than 3 station occurrences
never passes validation: `calculate` returns a validation error and no
response is produced, so the engine is never invoked; when the district is
the first offender in scan order (and the earlier per-district checks pass)
the reported error is the too-few-stations error for that district. -/
theorem too_few_stations_rejected (req : CalculationRequest) (d : DistrictInput)
    (hd : d ∈ req.districts) (hlen : d.stations.length < 3) :
    (∃ e, validate req = some e ∧ calculate req = Except.error e) ∧
    (∀ r, calculate req ≠ Except.ok r) ∧
    ((∀ d' ∈ req.districts, 0 < d'.area ∧ 0 < d'.k) →
      ∀ d₀, req.districts.find? (fun d' => d'.stations.length < 3) = some d₀ →
        calculate req = Except.error (.tooFewStations d₀.id)) := by
  have hne : validate req ≠ none := by
    intro h
    have := stations_length_of_validate h hd
    omega
  obtain ⟨e, he⟩ : ∃ e, validate req = some e := by
    cases h : validate req with
    | none => exact absurd h hne
    | some e => exact ⟨e, rfl⟩
  refine ⟨⟨e, he, calculate_eq_error he⟩, ?_, ?_⟩
  · intro r hr
    rw [calculate_eq_error he] at hr
    exact Except.noConfusion hr
  · intro hak d₀ hfind
    have hds : districtScan req = some (.tooFewStations d₀.id) :=
      districtScan_of_first_short hak hfind
    have hval : validate req = some (.tooFewStations d₀.id) := by
      unfold validate
      rw [hds]
    exact calculate_eq_error hval

theorem firstDup_eq_none_of_nodup {l : List Nat} (h : l.Nodup) : firstDup l = none := by
  induction l with
  | nil => rfl
  | cons x t ih =>
    rw [List.nodup_cons] at h
    unfold firstDup
    rw [if_neg h.1]
    exact ih h.2

/-- C7 (amended): on a request satisfying every other validation rule, the
first station-type id (in scan order) referenced by a district but absent
from `handovers` — with no external source configured, the setting this model
fixes — makes `calculate` fail with the validation error naming that id, and
no calculation is performed. -/
theorem unresolved_handover_error_names_id (req : CalculationRequest) (i : Nat)
    (hdistr : ∀ d ∈ req.districts, 0 < d.area ∧ 0 < d.k ∧ 3 ≤ d.stations.length)
    (hcov : ∀ st ∈ req.stationTypes, 0 < st.coverageArea)
    (hnodup : (req.stationTypes.map fun st => st.id).Nodup)
    (hknown : ∀ d ∈ req.districts, ∀ j ∈ d.stations, ∃ st ∈ req.stationTypes, st.id = j)
    (hfirst : firstUnresolved req = some i) :
    calculate req = Except.error (.noHandoverData i) ∧
    (∃ d ∈ req.districts, i ∈ d.stations) ∧
    (∀ h ∈ req.handovers, h.stationTypeId ≠ i) ∧
    errorMessage (.noHandoverData i) = "no handover data for station type " ++ toString i ∧
    namedStationType (.noHandoverData i) = some i := by
  have hds : districtScan req = none := by
    unfold districtScan
    rw [List.findSome?_eq_none_iff]
    intro d hd
    obtain ⟨ha, hk, hl⟩ := hdistr d hd
    rw [if_neg (not_le.mpr ha), if_neg (not_le.mpr hk), if_neg (by omega)]
  have hsts : stationTypeScan req = none := by
    unfold stationTypeScan
    rw [List.findSome?_eq_none_iff]
    intro st hst
    rw [if_neg (not_le.mpr (hcov st hst))]
  have hdup : dupScan req = none := by
    unfold dupScan
    rw [firstDup_eq_none_of_nodup hnodup]
    rfl
  have hunk : unknownScan req = none := by
    unfold unknownScan
    rw [List.findSome?_eq_none_iff]
    intro d hd
    rw [Option.map_eq_none', List.find?_eq_none]
    intro j hj
    obtain ⟨st, hstmem, hstid⟩ := hknown d hd j hj
    have : (req.stationTypes.find? fun st => st.id == j).isSome := by
      rw [List.find?_isSome]
      exact ⟨st, hstmem, by simp [hstid]⟩
    simp only [Option.isNone_iff_eq_none]
    intro hcontra
    rw [hcontra] at this
    simp at this
  have hval : validate req = some (.noHandoverData i) := by
    unfold validate
    rw [hds, hsts, hdup, hunk]
    unfold unresolvedScan
    rw [hfirst]
    rfl
  obtain ⟨l₁, d, l₂, hsplit, hfd, -⟩ := List.findSome?_eq_some_iff.mp hfirst
  have hdmem : d ∈ req.districts := by
    rw [hsplit]
    simp
  have himem : i ∈ d.stations := List.mem_of_find?_eq_some hfd
  have hpi : ((req.handovers.find? fun h => h.stationTypeId == i).isNone) = true := by
    simpa using List.find?_some hfd
  refine ⟨calculate_eq_error hval, ⟨d, hdmem, himem⟩, ?_, rfl, rfl⟩
  intro h hh hcontra
  rw [Option.isNone_iff_eq_none, List.find?_eq_none] at hpi
  exact absurd (by simp [hcontra]) (hpi h hh)

/-! ### Concrete fixtures -/

/-- A fully valid one-district request (the spec's canonical regression
fixture, with exact rational geometry). -/
def demoDistrict : DistrictInput := ⟨"demo", 4, 1, [1, 1, 1]⟩

/-- The valid request around `demoDistrict`. -/
def demoReq : CalculationRequest :=
  { pi := 3
    stationTypes := [⟨1, 1, 12, 18⟩]
    handovers := [⟨1, 14⟩]
    districts := [demoDistrict] }

/-- A district with a single station occurrence (fails the 3-station rule). -/
def shortDistrict : DistrictInput := ⟨"a", 1, 1, [1]⟩

/-- A request whose only district has too few stations. -/
def shortReq : CalculationRequest :=
  { pi := 3
    stationTypes := [⟨1, 1, 0, 0⟩]
    handovers := [⟨1, 1⟩]
    districts := [shortDistrict] }

/-- An otherwise-valid request in which the ids 5, 6 and 7 are all referenced
by the district and all missing from `handovers`. -/
def twoUnresolvedReq : CalculationRequest :=
  { pi := 3
    stationTypes := [⟨5, 1, 0, 0⟩, ⟨6, 1, 0, 0⟩, ⟨7, 1, 0, 0⟩]
    handovers := []
    districts := [⟨"a", 1, 1, [5, 6, 7]⟩] }

/-- C7 — counterexample to the claim as stated: in `twoUnresolvedReq` the id
6 is referenced by a district and absent from `handovers` (no external source
is configured in this model), yet the single reported validation error names
id 5, the first unresolved id in scan order, not 6. -/
theorem unresolved_handover_not_named_cex :
    ((∃ d ∈ twoUnresolvedReq.districts, 6 ∈ d.stations) ∧
      (∀ h ∈ twoUnresolvedReq.handovers, h.stationTypeId ≠ 6)) ∧
    calculate twoUnresolvedReq = Except.error (.noHandoverData 5) ∧
    ¬ ∃ e, calculate twoUnresolvedReq = Except.error e ∧ namedStationType e = some 6 := by
  have hval : validate twoUnresolvedReq = some (.noHandoverData 5) := by decide
  have hcalc : calculate twoUnresolvedReq = Except.error (.noHandoverData 5) :=
    calculate_eq_error hval
  refine ⟨⟨by decide, by decide⟩, hcalc, ?_⟩
  rintro ⟨e, he, hn⟩
  rw [hcalc] at he
  cases he
  exact absurd hn (by decide)

/-! ### Witnesses -/

/-- Witness for C2 at the concrete valid request `demoReq`. -/
theorem handover_adjustment_rule_witness :
    (demoDistrict ∈ demoReq.districts ∧ validate demoReq = none) ∧
    (((∃ i ∈ demoDistrict.stations,
          handoverAvgRaw demoReq demoDistrict < (typeOf demoReq i).handoverMin) →
        (districtResultOf demoReq demoDistrict).handoverAdjusted = true ∧
          nFull demoReq demoDistrict =
            1.4 * (LRaw demoReq demoDistrict / CRaw demoReq demoDistrict)) ∧
      ((∀ i ∈ demoDistrict.stations,
          ¬ handoverAvgRaw demoReq demoDistrict < (typeOf demoReq i).handoverMin) →
        (districtResultOf demoReq demoDistrict).handoverAdjusted = false ∧
          nFull demoReq demoDistrict =
            LRaw demoReq demoDistrict / CRaw demoReq demoDistrict) ∧
      (districtResultOf demoReq demoDistrict).n = round2R (nFull demoReq demoDistrict)) :=
  ⟨⟨by decide, by decide⟩,
    handover_adjustment_rule demoReq demoDistrict (by decide) (by decide)⟩

/-- Witness for C3 at the concrete valid request `demoReq`. -/
theorem cluster_formula_witness :
    (demoDistrict ∈ demoReq.districts ∧ validate demoReq = none) ∧
    (∃ r1 r2 r3 rest,
      (radiiOf demoReq demoDistrict).Perm (r1 :: r2 :: r3 :: rest) ∧
      r2 ≤ r1 ∧ r3 ≤ r2 ∧ (∀ x ∈ rest, x ≤ r3) ∧
      CRaw demoReq demoDistrict =
        (2 * r1) ^ ((5 : ℝ) / 2) + (2 * r2) ^ ((3 : ℝ) / 2) + (2 * r3) ^ ((1 : ℝ) / 2) ∧
      nUnadj demoReq demoDistrict = LRaw demoReq demoDistrict / CRaw demoReq demoDistrict) :=
  ⟨⟨by decide, by decide⟩, cluster_formula demoReq demoDistrict (by decide) (by decide)⟩

/-- Witness for C4 at the concrete valid request `demoReq`. -/
theorem L_mean_over_occurrences_witness :
    (demoDistrict ∈ demoReq.districts ∧ validate demoReq = none) ∧
    (LRaw demoReq demoDistrict =
      ((demoDistrict.stations.map fun i =>
          (demoDistrict.k : ℝ) *
            (Real.sqrt ((demoDistrict.area : ℝ) / (demoReq.pi : ℝ)) /
              Real.sqrt (((typeOf demoReq i).coverageArea : ℝ) / (demoReq.pi : ℝ))) ^ 2).sum) /
        (demoDistrict.stations.length : ℝ) ∧
    (0 < demoReq.pi →
      LRaw demoReq demoDistrict =
        ((demoDistrict.stations.map fun i =>
            (demoDistrict.k : ℝ) *
              ((demoDistrict.area : ℝ) / ((typeOf demoReq i).coverageArea : ℝ))).sum) /
          (demoDistrict.stations.length : ℝ))) :=
  ⟨⟨by decide, by decide⟩,
    L_mean_over_occurrences demoReq demoDistrict (by decide) (by decide)⟩

/-- Witness for C5 at the concrete valid request `demoReq`. -/
theorem totalN_full_precision_sum_witness :
    validate demoReq = none ∧
    (calculate demoReq = .ok (engine demoReq) ∧
      (engine demoReq).totalN = round2R ((demoReq.districts.map fun d => nFull demoReq d).sum) ∧
      |(engine demoReq).totalN -
          (((engine demoReq).districtResults.map fun r => r.n).sum)| ≤
        ((demoReq.districts.length : ℝ) + 1) / 200) :=
  ⟨by decide, totalN_full_precision_sum demoReq (by decide)⟩

/-- Witness for C6 at the concrete request `shortReq`. -/
theorem too_few_stations_rejected_witness :
    (shortDistrict ∈ shortReq.districts ∧ shortDistrict.stations.length < 3) ∧
    ((∃ e, validate shortReq = some e ∧ calculate shortReq = Except.error e) ∧
      (∀ r, calculate shortReq ≠ Except.ok r) ∧
      ((∀ d' ∈ shortReq.districts, 0 < d'.area ∧ 0 < d'.k) →
        ∀ d₀, shortReq.districts.find? (fun d' => d'.stations.length < 3) = some d₀ →
          calculate shortReq = Except.error (.tooFewStations d₀.id))) :=
  ⟨⟨by decide, by decide⟩,
    too_few_stations_rejected shortReq shortDistrict (by decide) (by decide)⟩

/-- Witness for C7 (amended) at the concrete request `twoUnresolvedReq`. -/
theorem unresolved_handover_error_names_id_witness :
    ((∀ d ∈ twoUnresolvedReq.districts, 0 < d.area ∧ 0 < d.k ∧ 3 ≤ d.stations.length) ∧
      (∀ st ∈ twoUnresolvedReq.stationTypes, 0 < st.coverageArea) ∧
      (twoUnresolvedReq.stationTypes.map fun st => st.id).Nodup ∧
      (∀ d ∈ twoUnresolvedReq.districts, ∀ j ∈ d.stations,
        ∃ st ∈ twoUnresolvedReq.stationTypes, st.id = j) ∧
      firstUnresolved twoUnresolvedReq = some 5) ∧
    (calculate twoUnresolvedReq = Except.error (.noHandoverData 5) ∧
      (∃ d ∈ twoUnresolvedReq.districts, 5 ∈ d.stations) ∧
      (∀ h ∈ twoUnresolvedReq.handovers, h.stationTypeId ≠ 5) ∧
      errorMessage (.noHandoverData 5) =
        "no handover data for station type " ++ toString 5 ∧
      namedStationType (.noHandoverData 5) = some 5) :=
  ⟨⟨by decide, by decide, by decide, by decide, by decide⟩,
    unresolved_handover_error_names_id twoUnresolvedReq 5 (by decide) (by decide)
      (by decide) (by decide) (by decide)⟩

end Backend

namespace JS

/-!
Model of the JavaScript `Number(value)` conversion (ECMAScript ToNumber) as
used by `front/src/App.jsx`.  Numbers are modelled as exact rationals: the
IEEE-754 rounding of decimal literals and the overflow of huge literals to
Infinity are not modelled, which is irrelevant to the properties proved here
(filtering, finiteness, and the equality of the two payload builders). -/

/-- The result of `Number(...)`: NaN, ±Infinity, or a finite value. -/
inductive JSNum where
  | nan
  | posInf
  | negInf
  | fin (q : ℚ)
  deriving DecidableEq

/-- Model of `Number.isFinite` on a conversion result. -/
def isFinite : JSNum → Bool
  | .fin _ => true
  | _ => false

/-- The rational carried by a finite conversion result (0 otherwise; only
applied to values that passed the `isFinite` filter). -/
def finValue : JSNum → ℚ
  | .fin q => q
  | _ => 0

/-- JavaScript whitespace as trimmed by `String.prototype.trim` and by the
ToNumber conversion (ASCII subset; Unicode spaces are not modelled). -/
def isWhitespace (c : Char) : Bool :=
  c == ' ' || c == '\t' || c == '\n' || c == '\r' || c == '\x0b' || c == '\x0c'

/-- Model of `trim` on a character list: drop leading and trailing whitespace. -/
def trimChars (cs : List Char) : List Char :=
  ((cs.dropWhile isWhitespace).reverse.dropWhile isWhitespace).reverse

/-- Model of `value.split(",")` on a character list: tail-building accumulator. -/
def splitCommaAux : List Char → List Char → List (List Char)
  | [], acc => [acc.reverse]
  | c :: rest, acc =>
    if c == ',' then acc.reverse :: splitCommaAux rest []
    else splitCommaAux rest (c :: acc)

/-- Model of `value.split(",")`: the comma-separated tokens of a string, in order;
like the JavaScript original it never returns an empty list and keeps empty
tokens. -/
def splitComma (s : String) : List (List Char) := splitCommaAux s.toList []

/-- Powers of ten on rationals by structural recursion. -/
def pow10 : Nat → ℚ
  | 0 => 1
  | n + 1 => 10 * pow10 n

/-- Scale a rational by `10 ^ e` for a signed exponent. -/
def applyExp (q : ℚ) : Int → ℚ
  | .ofNat n => q * pow10 n
  | .negSucc n => q / pow10 (n + 1)

/-- Value of a decimal digit character. -/
def digitVal? (c : Char) : Option Nat :=
  if c.isDigit then some (c.toNat - 48) else none

/-- Value of a hexadecimal digit character. -/
def hexVal? (c : Char) : Option Nat :=
  if c.isDigit then some (c.toNat - 48)
  else if 'a' ≤ c ∧ c ≤ 'f' then some (c.toNat - 87)
  else if 'A' ≤ c ∧ c ≤ 'F' then some (c.toNat - 55)
  else none

/-- Read a digit string in the given base; `none` if any character is not a
digit below the base.  The empty list reads as 0 (callers guard emptiness). -/
def digitsVal? (base : Nat) (dv : Char → Option Nat) (cs : List Char) : Option Nat :=
  cs.foldl
    (fun acc c => acc.bind fun n => (dv c).bind fun d =>
      if d < base then some (base * n + d) else none)
    (some 0)

/-- Exponent part of a decimal literal: optional sign, then ≥ 1 digits. -/
def parseExponent? (cs : List Char) : Option Int :=
  match cs with
  | [] => none
  | '+' :: rest =>
    if rest.isEmpty then none else (digitsVal? 10 digitVal? rest).map Int.ofNat
  | '-' :: rest =>
    if rest.isEmpty then none else (digitsVal? 10 digitVal? rest).map fun n => -(n : Int)
  | _ => (digitsVal? 10 digitVal? cs).map Int.ofNat

/-- Split a character list at the first character satisfying `p`; the second
component is `none` when no such character occurs. -/
def splitAtFirst (p : Char → Bool) : List Char → List Char × Option (List Char)
  | [] => ([], none)
  | c :: rest =>
    if p c then ([], some rest)
    else
      let (a, b) := splitAtFirst p rest
      (c :: a, b)

/-- Unsigned decimal literal: `digits [. digits] [e exp]`, `. digits [e exp]`
or `digits. [e exp]`; `none` when the literal is malformed (NaN). -/
def parseDec? (cs : List Char) : Option ℚ :=
  let mantExp := splitAtFirst (fun c => c == 'e' || c == 'E') cs
  let exp? : Option Int :=
    match mantExp.2 with
    | none => some 0
    | some e => parseExponent? e
  match exp? with
  | none => none
  | some ex =>
    let ipFp := splitAtFirst (fun c => c == '.') mantExp.1
    match ipFp.2 with
    | none =>
      if ipFp.1.isEmpty then none
      else (digitsVal? 10 digitVal? ipFp.1).map fun n => applyExp (n : ℚ) ex
    | some fp =>
      if ipFp.1.isEmpty && fp.isEmpty then none
      else
        (digitsVal? 10 digitVal? ipFp.1).bind fun n =>
          (digitsVal? 10 digitVal? fp).map fun m =>
            applyExp ((n : ℚ) + (m : ℚ) / pow10 fp.length) ex

/-- Radix-prefixed literal body (`0x…`, `0o…`, `0b…`): ≥ 1 digits. -/
def radixVal (base : Nat) (dv : Char → Option Nat) (cs : List Char) : JSNum :=
  if cs.isEmpty then .nan
  else
    match digitsVal? base dv cs with
    | some n => .fin (n : ℚ)
    | none => .nan

/-- A decimal literal body, or NaN. -/
def decVal (cs : List Char) : JSNum :=
  match parseDec? cs with
  | some q => .fin q
  | none => .nan

/-- The part of a string after an explicit sign: `Infinity` or a decimal
literal (radix prefixes do not admit signs in JavaScript). -/
def signedTail (cs : List Char) (neg : Bool) : JSNum :=
  if cs = "Infinity".toList then (if neg then .negInf else .posInf)
  else
    match parseDec? cs with
    | some q => .fin (if neg then -q else q)
    | none => .nan

/-- An unsigned numeric string body: `Infinity`, a radix-prefixed literal, or
a decimal literal. -/
def unsignedVal (cs : List Char) : JSNum :=
  if cs = "Infinity".toList then .posInf
  else
    match cs with
    | '0' :: c :: rest =>
      if c == 'x' || c == 'X' then radixVal 16 hexVal? rest
      else if c == 'o' || c == 'O' then radixVal 8 digitVal? rest
      else if c == 'b' || c == 'B' then radixVal 2 digitVal? rest
      else decVal cs
    | _ => decVal cs

/-- Model of `Number(...)` applied to a character list: trim whitespace, the empty
string converts to 0, otherwise parse an optionally signed numeric
literal. -/
def charsToNumber (cs : List Char) : JSNum :=
  match trimChars cs with
  | [] => .fin 0
  | '+' :: rest => signedTail rest false
  | '-' :: rest => signedTail rest true
  | t => unsignedVal t

/-- Model of `Number(s)` for a string `s`. -/
def stringToNumber (s : String) : JSNum := charsToNumber s.toList

/-- A JavaScript form-field value: the form state holds strings from the
inputs, except the generated `id`/`stationTypeId` fields which start as (and
are re-added as) numbers. -/
inductive JSValue where
  | str (s : String)
  | num (q : ℚ)
  deriving DecidableEq

/-- Model of `Number(value)` on a form-field value: identity on numbers, string
conversion on strings. -/
def toNumberOf : JSValue → JSNum
  | .str s => stringToNumber s
  | .num q => .fin q

/-- The value of `Math.PI`, the IEEE-754 double closest to π. -/
def mathPI : ℚ := 884279719003555 / 281474976710656

end JS

/-!
Form state and payload shapes shared by the two `App` component versions in
`front/src/App.jsx` (the React state holds strings from the text inputs; the
generated `id`/`stationTypeId` fields start as, and are re-added as, plain
numbers, hence `JSValue`). -/

/-- One row of the "Типы станций" card. -/
structure StationTypeForm where
  id : JS.JSValue
  coverageArea : String
  handoverMin : String
  handoverMax : String

/-- One row of the "Handover" card. -/
structure HandoverForm where
  stationTypeId : JS.JSValue
  value : String

/-- One row of the "Районы" card. -/
structure DistrictForm where
  id : String
  area : String
  k : String
  stations : String

/-- The relevant React state of the `App` component. -/
structure FormState where
  pi : String
  stationTypes : List StationTypeForm
  handovers : List HandoverForm
  districts : List DistrictForm

/-- Shape of `stationTypes[i]` of the JSON payload. -/
structure PayloadStationType where
  id : ℚ
  coverageArea : ℚ
  handoverMin : ℚ
  handoverMax : ℚ
  deriving DecidableEq

/-- Shape of `handovers[i]` of the JSON payload. -/
structure PayloadHandover where
  stationTypeId : ℚ
  value : ℚ
  deriving DecidableEq

/-- Shape of `districts[i]` of the JSON payload. -/
structure PayloadDistrict where
  id : String
  area : ℚ
  k : ℚ
  stations : List ℚ
  deriving DecidableEq

/-- The JSON payload POSTed to `/api/v1/calculate`. -/
structure Payload where
  pi : ℚ
  stationTypes : List PayloadStationType
  handovers : List PayloadHandover
  districts : List PayloadDistrict
  deriving DecidableEq

namespace Frontend

/-!
Translated from the first `App.jsx` component version
(`front/src/App.jsx`, `toNumber`, `parseStations`, `buildPayloadFromForm`). -/

/-- Translation of `toNumber(value, fallback = 0)`: the parsed number when finite, the
fallback otherwise. -/
def toNumber (value : JS.JSValue) (fallback : ℚ) : ℚ :=
  let n := JS.toNumberOf value
  if JS.isFinite n then JS.finValue n else fallback

/-- Translation of `parseStations(value)`: split on commas, convert each trimmed token with
`Number`, keep only the finite results. -/
def parseStations (value : String) : List ℚ :=
  (((JS.splitComma value).map fun part => JS.charsToNumber (JS.trimChars part)).filter
      fun n => JS.isFinite n).map JS.finValue

/-- Translation of `buildPayloadFromForm()`: the payload built from the form state. -/
def buildPayloadFromForm (f : FormState) : Payload :=
  { pi := toNumber (.str f.pi) JS.mathPI
    stationTypes := f.stationTypes.map fun st =>
      { id := toNumber st.id 0
        coverageArea := toNumber (.str st.coverageArea) 0
        handoverMin := toNumber (.str st.handoverMin) 0
        handoverMax := toNumber (.str st.handoverMax) 0 }
    handovers := f.handovers.map fun h =>
      { stationTypeId := toNumber h.stationTypeId 0
        value := toNumber (.str h.value) 0 }
    districts := f.districts.map fun d =>
      { id := d.id
        area := toNumber (.str d.area) 0
        k := toNumber (.str d.k) 0
        stations := parseStations d.stations } }

end Frontend

namespace FrontendV2

/-!
Translated from the second `App.jsx` component version (the file's second
document: its own `toNumber` and `parseStations` and the payload object
constructed inline in `handleSubmit`). -/

/-- Translation of `toNumber(value, fallback = 0)` of the second version. -/
def toNumber (value : JS.JSValue) (fallback : ℚ) : ℚ :=
  let n := JS.toNumberOf value
  if JS.isFinite n then JS.finValue n else fallback

/-- Translation of `parseStations(value)` of the second version. -/
def parseStations (value : String) : List ℚ :=
  (((JS.splitComma value).map fun part => JS.charsToNumber (JS.trimChars part)).filter
      fun n => JS.isFinite n).map JS.finValue

/-- The payload object constructed inline in the second version's
`handleSubmit`. -/
def handleSubmitPayload (f : FormState) : Payload :=
  { pi := toNumber (.str f.pi) JS.mathPI
    stationTypes := f.stationTypes.map fun st =>
      { id := toNumber st.id 0
        coverageArea := toNumber (.str st.coverageArea) 0
        handoverMin := toNumber (.str st.handoverMin) 0
        handoverMax := toNumber (.str st.handoverMax) 0 }
    handovers := f.handovers.map fun h =>
      { stationTypeId := toNumber h.stationTypeId 0
        value := toNumber (.str h.value) 0 }
    districts := f.districts.map fun d =>
      { id := d.id
        area := toNumber (.str d.area) 0
        k := toNumber (.str d.k) 0
        stations := parseStations d.stations } }

end FrontendV2

/-! ### Claim theorems for the frontend -/

theorem filter_finite_map_finValue (toks : List (List Char)) :
    (((toks.map fun part => JS.charsToNumber (JS.trimChars part)).filter fun n =>
        JS.isFinite n).map JS.finValue) =
      toks.filterMap fun part =>
        match JS.charsToNumber (JS.trimChars part) with
        | JS.JSNum.fin q => some q
        | _ => none := by
  induction toks with
  | nil => rfl
  | cons t ts ih =>
    simp only [List.map_cons, List.filterMap_cons]
    cases h : JS.charsToNumber (JS.trimChars t) with
    | fin q => exact congrArg (fun l => q :: l) ih
    | nan => exact ih
    | posInf => exact ih
    | negInf => exact ih

theorem mem_parseStations {s : String} {x : ℚ} (hx : x ∈ Frontend.parseStations s) :
    ∃ t : List Char, JS.charsToNumber (JS.trimChars t) = JS.JSNum.fin x := by
  unfold Frontend.parseStations at hx
  rw [filter_finite_map_finValue, List.mem_filterMap] at hx
  obtain ⟨part, hmem, hsome⟩ := hx
  cases h : JS.charsToNumber (JS.trimChars part) with
  | fin q =>
    rw [h] at hsome
    cases hsome
    exact ⟨part, h⟩
  | nan => rw [h] at hsome; cases hsome
  | posInf => rw [h] at hsome; cases hsome
  | negInf => rw [h] at hsome; cases hsome

/-- C8: `parseStations` returns, in order, exactly the comma-separated tokens
that convert (after trimming) to finite numbers, silently dropping the rest;
the payload's `stations` arrays are exactly these lists, so they can be
shorter than what the user typed — as the concrete token string `"1,x,y"`
shows, even shorter than 3 entries — with no error anywhere. -/
theorem parseStations_keeps_only_finite (s : String) (f : FormState) :
    Frontend.parseStations s =
      ((JS.splitComma s).filterMap fun part =>
        match JS.charsToNumber (JS.trimChars part) with
        | JS.JSNum.fin q => some q
        | _ => none) ∧
    (Frontend.parseStations s).length ≤ (JS.splitComma s).length ∧
    (Frontend.buildPayloadFromForm f).districts.map (fun d => d.stations) =
      f.districts.map (fun d => Frontend.parseStations d.stations) ∧
    Frontend.parseStations "1,x,y" = [1] ∧ (JS.splitComma "1,x,y").length = 3 := by
  refine ⟨filter_finite_map_finValue _, ?_, ?_, ?_, by decide⟩
  · unfold Frontend.parseStations
    rw [filter_finite_map_finValue]
    exact List.length_filterMap_le _ _
  · unfold Frontend.buildPayloadFromForm
    rw [List.map_map]
    rfl
  · with_unfolding_all decide

/-- C9: `toNumber` is total with a finite rational result — the parsed value
whenever `Number(value)` is finite and the fallback otherwise (`Math.PI` for
the `pi` field); every entry of a payload `stations` list is the value of an
actually-finite string conversion, so no payload number is ever NaN or
Infinity. -/
theorem toNumber_total_finite (v : JS.JSValue) (fb : ℚ) (f : FormState) :
    (∀ q, JS.toNumberOf v = JS.JSNum.fin q → Frontend.toNumber v fb = q) ∧
    (JS.isFinite (JS.toNumberOf v) = false → Frontend.toNumber v fb = fb) ∧
    (Frontend.buildPayloadFromForm f).pi = Frontend.toNumber (.str f.pi) JS.mathPI ∧
    (∀ pd ∈ (Frontend.buildPayloadFromForm f).districts, ∀ x ∈ pd.stations,
      ∃ t : List Char, JS.charsToNumber (JS.trimChars t) = JS.JSNum.fin x) := by
  refine ⟨?_, ?_, rfl, ?_⟩
  · intro q hq
    unfold Frontend.toNumber
    rw [hq]
    rfl
  · intro hfin
    unfold Frontend.toNumber
    rw [if_neg (by rw [hfin]; exact Bool.false_ne_true)]
  · intro pd hpd x hx
    unfold Frontend.buildPayloadFromForm at hpd
    simp only [List.mem_map] at hpd
    obtain ⟨d, hd, rfl⟩ := hpd
    exact mem_parseStations hx

/-- C10: for every identical form state, the payload built by
`buildPayloadFromForm` in the first `App` component version and the payload
constructed inline in `handleSubmit` of the second version are structurally
equal — same fields, same values, same list order. -/
theorem payload_builders_agree (f : FormState) :
    Frontend.buildPayloadFromForm f = FrontendV2.handleSubmitPayload f := rfl

